import Mathlib

/-!
Verification of the SafetyTAP content-engine scripts
(`content-engine/daily-generate.js`, `content-engine/combine-topics.js`,
`content-engine/init-schedule.js`) against their natural-language
specification.

Modelling conventions for the shallow embedding of the JavaScript source:

* JS strings are Lean `String`s; `String.prototype.includes` is substring
  containment on the underlying character lists, `toLowerCase` is
  `String.toLower`, `split(sep)` is `String.splitOn`, `slice(0, n)` takes
  the first `n` characters.
* A JS object used as a record with dynamic keys (a schedule `posts` entry,
  which may carry extra keys such as `heroImage` or `editorialNote`) is an
  association list `List (String × FieldVal)` whose lookup takes the first
  match; the spread `{...a, ...b}` (later keys win) is therefore `b ++ a`.
* The `posts` map of the schedule (JS object keyed by day number) is an
  association list `List (Int × PostEntry)`; a fresh assignment conses the
  new pair in front.
* JS numbers on the paths the claims exercise are integers, modelled as
  `Int` (`Nat` only for list positions).  The research feed's
  `relevanceScore` is a decimal in `[0, 1]`; it is modelled in integer
  thousandths (so the source constant `0.5` is `500`).  `0.5` is exactly
  representable in binary floating point, so for such decimal scores the
  source comparison `score < 0.5` coincides with the integer comparison.
* Calendar dates are the civil triples parsed from `"YYYY-MM-DD"` strings
  (ISO formatting/parsing is a bijection on valid dates and is not
  re-modelled).  `Date.UTC(y, m-1, dn)` is embedded by its ECMAScript
  `MakeDay` semantics: the epoch-day number of the first of the month plus
  `dn - 1`.  Epoch-day numbers use the standard civil-from-days formula.
  `Date.UTC` and `toISOString` are UTC-only primitives, so the embedding of
  the date functions takes no timezone input; host-timezone independence is
  recorded by an explicit wrapper that receives the host offset and ignores
  it, exactly as the source primitives do.
* Process-level effects of one run of `daily-generate.js` are captured by a
  pure function from the run's inputs (files on disk, CLI arguments,
  current time, the opaque oracle reply) to an outcome plus an effect
  record (number of oracle calls, content files written, whether and with
  what value the schedule file was saved).
-/

namespace SafetyTap

/-- JS `haystack.includes(needle)`: `needle` occurs contiguously in
`haystack`. -/
def jsIncludes (haystack needle : String) : Bool :=
  decide (needle.data <:+: haystack.data)

/-- JS `s.slice(0, n)`: the first `n` characters of `s`. -/
def jsSlice (s : String) (n : Nat) : String :=
  ⟨s.data.take n⟩

/-- JS `[...new Set(l)]`: deduplication keeping the first occurrence of
each element, in insertion order. -/
def jsSetDedup {α : Type} [DecidableEq α] : List α → List α
  | [] => []
  | x :: xs => x :: jsSetDedup (xs.filter (fun y => y != x))
termination_by l => l.length
decreasing_by
  simp only [List.length_cons]
  exact Nat.lt_succ_of_le (List.length_filter_le _ _)

/-- JS `split` on a single-character separator, on character lists:
`"".split(sep)` is `[""]`, and adjacent separators yield empty fields. -/
def splitChars (sep : Char) : List Char → List (List Char)
  | [] => [[]]
  | c :: cs =>
      let rest := splitChars sep cs
      if c = sep then [] :: rest
      else (c :: rest.headI) :: rest.tail

/-- JS `s.split(sep)` for a single-character separator. -/
def jsSplit (s : String) (sep : Char) : List String :=
  (splitChars sep s.data).map (fun l => ⟨l⟩)

/-- JS `s.toLowerCase()` (on the alphabet these scripts use, per-character
lowercasing). -/
def jsToLower (s : String) : String :=
  ⟨s.data.map Char.toLower⟩

/-- `a || b` on JS values that are either `null`/`NaN` (`none`) or a
number: a number is truthy unless it is `0`. -/
def jsOrInt (a b : Option Int) : Option Int :=
  match a with
  | some v => if v = 0 then b else some v
  | none => b

/-- A value stored in a schedule `posts` entry (the fields written by the
scripts are strings, booleans and the resolved date). -/
inductive FieldVal : Type
  | str (s : String)
  | bool (b : Bool)
  | int (n : Int)
deriving DecidableEq

/-- A schedule `posts` entry: a JS object with dynamic keys. -/
abbrev PostEntry := List (String × FieldVal)

/-- The schedule's `posts` object, keyed by day number. -/
abbrev Posts := List (Int × PostEntry)

/-- A civil calendar date, as parsed from a `"YYYY-MM-DD"` string by
`split('-').map(Number)`. -/
structure Date where
  y : Int
  m : Int
  d : Int
deriving DecidableEq

/-- The schedule record persisted in `schedule.json`.  `posts` is optional
because the source guards with `schedule.posts || {}`. -/
structure Schedule where
  startDate : Date
  posts : Option Posts
deriving DecidableEq

-- ---------------------------------------------------------------------------
-- Civil-date arithmetic (ECMAScript `Date.UTC` day numbers)
-- ---------------------------------------------------------------------------

/-- Year shifted so that the year starts in March (`m ≤ 2` belongs to the
previous shifted year). -/
def shiftedYear (y m : Int) : Int :=
  if m ≤ 2 then y - 1 else y

/-- 400-year era of a shifted year. -/
def eraOf (y : Int) : Int :=
  (if 0 ≤ y then y else y - 399) / 400

/-- Year within its 400-year era. -/
def yearOfEra (y : Int) : Int :=
  y - eraOf y * 400

/-- Day of the shifted (March-based) year for civil month `m`, day `d`. -/
def dayOfYear (m d : Int) : Int :=
  (153 * ((m + 9) % 12) + 2) / 5 + d - 1

/-- Days since the Unix epoch of the civil date `(y, m, d)` (proleptic
Gregorian, months `1..12`). -/
def daysFromCivil (y m d : Int) : Int :=
  eraOf (shiftedYear y m) * 146097
    + (yearOfEra (shiftedYear y m) * 365
        + yearOfEra (shiftedYear y m) / 4
        - yearOfEra (shiftedYear y m) / 100
        + dayOfYear m d)
    - 719468

/-- Epoch-day number of the civil date. -/
def civilToEpochDay (dt : Date) : Int :=
  daysFromCivil dt.y dt.m dt.d

/-- Moving a calendar date, given as an epoch-day number, forward by `k`
days. -/
def addDays (epochDay k : Int) : Int :=
  epochDay + k

/-- ECMAScript `Date.UTC(y, m - 1, dayNum)` as an epoch-day number, for
civil months `m ∈ 1..12` (the only months produced by parsing a well-formed
ISO date).  Per `MakeDay`, an out-of-range `dayNum` rolls over: the result
is the day number of the first of the month plus `dayNum - 1`. -/
def jsUTCDay (y m dayNum : Int) : Int :=
  daysFromCivil y m 1 + (dayNum - 1)

-- ---------------------------------------------------------------------------
-- `daily-generate.js`
-- ---------------------------------------------------------------------------

namespace DailyGenerate

/-- `loadSchedule()`: parse `schedule.json` if it exists, otherwise a fresh
schedule whose `startDate` is today's UTC date and whose `posts` is the
empty object. -/
def loadSchedule (file : Option Schedule) (today : Date) : Schedule :=
  match file with
  | some s => s
  | none => { startDate := today, posts := some [] }

/-- The source condition `posts[day] && posts[day].status === 'published'`:
the entry for `day` exists and its `status` field is `"published"`. -/
def isPublished (posts : Posts) (day : Int) : Bool :=
  match posts.lookup day with
  | none => false
  | some e => e.lookup "status" == some (FieldVal.str "published")

/-- `getNextScheduledDay(schedule)`: scan days `1..180` in order and return
the first whose entry is absent or not `"published"`; `null` if none. -/
def getNextScheduledDay (schedule : Schedule) : Option Int :=
  let posts := schedule.posts.getD []
  (((List.range' 1 180).map (Int.ofNat))).find?
    (fun day => ! isPublished posts day)

/-- `getDateForDay(schedule, day)` of `daily-generate.js`:
`Date.UTC(y, m - 1, d + (day - 1))`, returned as an epoch-day number (the
source renders it as an ISO date string). -/
def getDateForDay (schedule : Schedule) (day : Int) : Int :=
  jsUTCDay schedule.startDate.y schedule.startDate.m
    (schedule.startDate.d + (day - 1))

/-- `getDateForDay` as run on a host with a given local-timezone offset (in
minutes).  `Date.UTC` and `toISOString` are specified in UTC, so the host
offset does not enter the computation. -/
def hostGetDateForDay (tzOffsetMinutes : Int) (schedule : Schedule)
    (day : Int) : Int :=
  getDateForDay schedule day

/-- A research-feed item (scores in integer thousandths of the source's
decimal `relevanceScore`; `summary` and `relevancePillars` are optional
fields). -/
structure ResearchItem where
  title : String
  summary : Option String
  relevancePillars : Option (List String)
  relevanceScore : Int
  potentialAngles : List String
deriving DecidableEq

/-- The research feed file (`generatedAt` in epoch milliseconds; `items`
optional because the source guards with `!feed.items`). -/
structure Feed where
  generatedAt : Int
  items : Option (List ResearchItem)
deriving DecidableEq

/-- `loadResearchFeed()`: `null` when the file is absent or the feed is
older than 48 hours (wall-clock `nowMs` minus its `generatedAt`). -/
def loadResearchFeed (file : Option Feed) (nowMs : Int) : Option Feed :=
  match file with
  | none => none
  | some feed =>
      if 48 * 60 * 60 * 1000 < nowMs - feed.generatedAt then none
      else some feed

/-- The pillar half of the source's relevance filter:
`item.relevancePillars?.some(p => p === topic.pillar ||
p.includes(topic.pillar.split('-')[0]))`. -/
def pillarMatches (pillar : String) (item : ResearchItem) : Bool :=
  match item.relevancePillars with
  | none => false
  | some ps =>
      ps.any (fun p => p == pillar || jsIncludes p ((jsSplit pillar '-').headI))

/-- The keyword half of the source's relevance filter:
`topic.targetKeyword.split(' ').some(kw =>
item.title.toLowerCase().includes(kw) ||
item.summary?.toLowerCase().includes(kw))`.  Note that `kw` itself is not
lowercased. -/
def keywordMatches (targetKeyword : String) (item : ResearchItem) : Bool :=
  (jsSplit targetKeyword ' ').any (fun kw =>
    jsIncludes (jsToLower item.title) kw ||
      (match item.summary with
       | none => false
       | some sm => jsIncludes (jsToLower sm) kw))

/-- A topic record of the Topic Bank. -/
structure Topic where
  day : Int
  slug : String
  title : String
  targetKeyword : String
  psychologicalConcept : String
  constructionFraming : String
  safetyTapConnection : String
  tone : String
  researchReferences : List String
  targetLength : String
  pillar : String
  format : String
deriving DecidableEq

/-- The filter body of `findRelevantResearch`: reject scores below `0.5`,
then accept on pillar or keyword overlap. -/
def matchesTopic (topic : Topic) (item : ResearchItem) : Bool :=
  if item.relevanceScore < 500 then false
  else pillarMatches topic.pillar item || keywordMatches topic.targetKeyword item

/-- `findRelevantResearch(topic, feed)`: empty without a (fresh) feed or
items, otherwise the filtered items truncated to the first three. -/
def findRelevantResearch (topic : Topic) (feed : Option Feed) :
    List ResearchItem :=
  match feed with
  | none => []
  | some f =>
      match f.items with
      | none => []
      | some items => (items.filter (matchesTopic topic)).take 3

/-- The fixed format → read-time table of `buildFrontmatter`. -/
def readTimes : List (String × String) :=
  [("deep-dive", "6 min"), ("field-tip", "3 min"), ("myth-buster", "4 min"),
   ("incident-analysis", "5 min"), ("research-spotlight", "4 min"),
   ("leadership-brief", "4 min")]

/-- The derived front-matter fields (the source renders them into a YAML
block; the quote-escaping of the rendering is not modelled). -/
structure Frontmatter where
  title : String
  description : String
  date : Int
  tags : List String
  readTime : String
  featured : Bool
  seoKeywords : List String
  pillar : String
  format : String
deriving DecidableEq

/-- `buildFrontmatter(topic, publishDate)`. -/
def buildFrontmatter (topic : Topic) (publishDate : Int) : Frontmatter :=
  let readTime := (readTimes.lookup topic.format).getD "5 min"
  let tags := [topic.pillar, topic.format]
      ++ ((jsSplit topic.targetKeyword ' ').filter
            (fun w => 4 < w.length)).take 2
  let description :=
    if 155 < topic.psychologicalConcept.length then
      jsSlice topic.psychologicalConcept 152 ++ "..."
    else topic.psychologicalConcept
  { title := topic.title
    description := description
    date := publishDate
    tags := jsSetDedup tags
    readTime := readTime
    featured := topic.format == "deep-dive"
    seoKeywords := [topic.targetKeyword]
    pillar := topic.pillar
    format := topic.format }

/-- The inputs of one invocation of `daily-generate.js`: the three data
files (absent or parsed), the listing of the blog output directory, the CLI
arguments, the clock, whether `ANTHROPIC_API_KEY` is set, and the opaque
text the oracle would return.  `specificDay` is `parseInt` of the `--day`
argument (`none` when the flag is absent; a `NaN` parse behaves like
`none` through `jsOrInt` and is not modelled separately). -/
structure Env where
  topicBankFile : Option (List Topic)
  scheduleFile : Option Schedule
  researchFeedFile : Option Feed
  blogFiles : List String
  specificDay : Option Int
  previewMode : Bool
  hasApiKey : Bool
  today : Date
  nowMs : Int
  nowIso : String
  oracleText : String
deriving DecidableEq

/-- How one run ends (`fatal*` are the `process.exit(1)` paths). -/
inductive RunOutcome : Type
  | fatalNoTopicBank
  | allComplete
  | fatalNoTopic (day : Int)
  | skipped (slug : String)
  | previewed (slug : String)
  | fatalNoApiKey
  | generated (slug : String)
deriving DecidableEq

/-- The process exit code of an outcome. -/
def RunOutcome.exitCode : RunOutcome → Nat
  | .fatalNoTopicBank => 1
  | .fatalNoTopic _ => 1
  | .fatalNoApiKey => 1
  | _ => 0

/-- The externally visible effects of one run: how many oracle (API) calls
were made, which content files were written, and the schedule saved by
`saveSchedule` (`none` when `saveSchedule` was never called, i.e. the
schedule file is byte-for-byte unchanged). -/
structure RunEffects where
  oracleCalls : Nat
  writtenFiles : List String
  scheduleWritten : Option Schedule
deriving DecidableEq

/-- No side effects. -/
def noEffects : RunEffects := ⟨0, [], none⟩

/-- The schedule a run works with (`loadSchedule()`). -/
def theSchedule (env : Env) : Schedule :=
  loadSchedule env.scheduleFile env.today

/-- `SPECIFIC_DAY || getNextScheduledDay(schedule)`. -/
def theTargetDay (env : Env) : Option Int :=
  jsOrInt env.specificDay (getNextScheduledDay (theSchedule env))

/-- `schedule.posts?.[targetDay]?.editorialNote || null`: the note string
attached to the day, with the empty string collapsing to `null` by JS
falsiness (non-string values are not used as notes). -/
def editorialNoteOf (schedule : Schedule) (day : Int) : Option String :=
  match (schedule.posts.getD []).lookup day with
  | none => none
  | some e =>
      match e.lookup "editorialNote" with
      | some (FieldVal.str s) => if s = "" then none else some s
      | _ => none

/-- The fields assigned into the day's schedule entry after a successful
generation (the right-hand side of the object spread in `main`). -/
def updatedFields (topic : Topic) (publishDate : Int) (nowIso : String)
    (hadResearch hadNote : Bool) : PostEntry :=
  [("slug", FieldVal.str topic.slug),
   ("title", FieldVal.str topic.title),
   ("date", FieldVal.int publishDate),
   ("pillar", FieldVal.str topic.pillar),
   ("format", FieldVal.str topic.format),
   ("status", FieldVal.str "published"),
   ("generatedAt", FieldVal.str nowIso),
   ("hadResearchIntegration", FieldVal.bool hadResearch),
   ("hadEditorialNote", FieldVal.bool hadNote)]

/-- The keys assigned by `updatedFields`; every other key of a pre-existing
entry (e.g. `heroImage`, `editorialNote`) survives the spread-merge. -/
def writtenKeys : List String :=
  ["slug", "title", "date", "pillar", "format", "status", "generatedAt",
   "hadResearchIntegration", "hadEditorialNote"]

/-- One run of `main()` in `daily-generate.js`, step for step: load the
topic bank (fatal if absent), load or initialise the schedule, resolve the
target day (`--day` override or scan; all-published terminates cleanly),
look up the topic (fatal if absent), skip if the content file exists, stop
in preview mode, match research, read the editorial note, require the API
key, then call the oracle once, write the content file, and save the
schedule with the day's entry spread-merged onto any existing entry. -/
def mainRun (env : Env) : RunOutcome × RunEffects :=
  match env.topicBankFile with
  | none => (.fatalNoTopicBank, noEffects)
  | some topics =>
      let schedule := theSchedule env
      match theTargetDay env with
      | none => (.allComplete, noEffects)
      | some targetDay =>
          match topics.find? (fun t => t.day == targetDay) with
          | none => (.fatalNoTopic targetDay, noEffects)
          | some topic =>
              let publishDate := getDateForDay schedule targetDay
              let outFile := topic.slug ++ ".mdx"
              if outFile ∈ env.blogFiles then
                (.skipped topic.slug, noEffects)
              else if env.previewMode then
                (.previewed topic.slug, noEffects)
              else
                let relevantResearch :=
                  findRelevantResearch topic
                    (loadResearchFeed env.researchFeedFile env.nowMs)
                let editorialNote := editorialNoteOf schedule targetDay
                if env.hasApiKey = false then
                  (.fatalNoApiKey, noEffects)
                else
                  let oldPosts := schedule.posts.getD []
                  let existing := (oldPosts.lookup targetDay).getD []
                  let newEntry :=
                    updatedFields topic publishDate env.nowIso
                        (decide (0 < relevantResearch.length))
                        editorialNote.isSome
                      ++ existing
                  (.generated topic.slug,
                   ⟨1, [outFile],
                    some { schedule with
                           posts := some ((targetDay, newEntry) :: oldPosts) }⟩)

end DailyGenerate

-- ---------------------------------------------------------------------------
-- `combine-topics.js`
-- ---------------------------------------------------------------------------

namespace CombineTopics

open DailyGenerate (Topic)

/-- What reading one batch file yields: the file is absent, it parses but
is not a JSON array, or it is an array of topic records. -/
inductive BatchData : Type
  | missing
  | notArray
  | loaded (topics : List Topic)
deriving DecidableEq

/-- The result of the combiner: the persisted topic bank plus the warnings
it printed (missing files, unparsable files, duplicate days and slugs). -/
structure CombineResult where
  topics : List Topic
  missingWarnings : List String
  parseErrors : List String
  duplicateDayWarnings : List Int
  duplicateSlugWarnings : List String
deriving DecidableEq

/-- `allTopics` after the read loop: the concatenation, in file order, of
the contents of the successfully loaded batch files. -/
def loadedTopics : List (String × BatchData) → List Topic
  | [] => []
  | (_, BatchData.loaded ts) :: rest => ts ++ loadedTopics rest
  | _ :: rest => loadedTopics rest

/-- The total number of records in the successfully loaded inputs. -/
def sumLoadedLengths (files : List (String × BatchData)) : Nat :=
  (files.map (fun f =>
    match f.2 with
    | BatchData.loaded ts => ts.length
    | _ => 0)).sum

/-- The comparator `(a, b) => a.day - b.day` as a sorting predicate. -/
def dayLe (a b : Topic) : Bool :=
  a.day ≤ b.day

/-- The `combine-topics.js` script body: read every batch file (warn on a
missing one, log and skip one that is not an array), concatenate, sort by
day (JS `Array.sort` is stable, as is merge sort), compute the duplicate
day/slug warnings exactly as the source's `indexOf`-based filters do, and
persist the sorted list. -/
def combine (files : List (String × BatchData)) : CombineResult :=
  let allTopics := loadedTopics files
  let sorted := allTopics.mergeSort dayLe
  let days := sorted.map (fun t => t.day)
  let dupeDays := (days.enum.filter
      (fun p => List.indexOf p.2 days ≠ p.1)).map (fun p => p.2)
  let slugs := sorted.map (fun t => t.slug)
  let dupeSlugs := (slugs.enum.filter
      (fun p => List.indexOf p.2 slugs ≠ p.1)).map (fun p => p.2)
  { topics := sorted
    missingWarnings := (files.filter
        (fun f => f.2 == BatchData.missing)).map (fun f => f.1)
    parseErrors := (files.filter
        (fun f => f.2 == BatchData.notArray)).map (fun f => f.1)
    duplicateDayWarnings := jsSetDedup dupeDays
    duplicateSlugWarnings := jsSetDedup dupeSlugs }

end CombineTopics

-- ---------------------------------------------------------------------------
-- `init-schedule.js`
-- ---------------------------------------------------------------------------

namespace InitSchedule

/-- `getDateForDay(startDate, day)` of `init-schedule.js`: textually the
same computation as the generator's, with the start date passed directly. -/
def getDateForDay (startDate : Date) (day : Int) : Int :=
  jsUTCDay startDate.y startDate.m (startDate.d + (day - 1))

end InitSchedule

-- ---------------------------------------------------------------------------
-- Claim-side specification predicates
-- ---------------------------------------------------------------------------

open DailyGenerate

/-- The day selector as the claim words it: the smallest day `d` in
`[1, N]` whose entry is absent or not `"published"`; `none` (the completion
sentinel) when every day in the range is published.  `find?` over the
ascending range returns exactly that smallest day. -/
def specNextDay (N : Nat) (posts : Posts) : Option Int :=
  (((List.range' 1 N).map (Int.ofNat))).find?
    (fun day => ! isPublished posts day)

/-- Claim C1 as stated: for every schedule the selector scans the range
`[1, N]` where `N` is the topic count of the Topic Bank. -/
def claimC1 : Prop :=
  ∀ (bank : List Topic) (s : Schedule),
    getNextScheduledDay s = specNextDay bank.length (s.posts.getD [])

/-- The relevance predicate as claim C5 words clause (b): a keyword token
occurring in the title or summary *compared case-insensitively* (both sides
lowercased).  Clause (a) is the pillar overlap as in the source. -/
def ciQualifies (topic : Topic) (item : ResearchItem) : Prop :=
  (∃ ps, item.relevancePillars = some ps ∧ ∃ p ∈ ps,
      p = topic.pillar
        ∨ jsIncludes p ((jsSplit topic.pillar '-').headI) = true)
  ∨ (∃ kw ∈ jsSplit topic.targetKeyword ' ',
      jsIncludes (jsToLower item.title) (jsToLower kw) = true
        ∨ ∃ sm, item.summary = some sm
            ∧ jsIncludes (jsToLower sm) (jsToLower kw) = true)

/-- Claim C5 as stated: for score-qualified items the source filter agrees
with the case-insensitive predicate. -/
def claimC5 : Prop :=
  ∀ (t : Topic) (i : ResearchItem), 500 ≤ i.relevanceScore →
    (matchesTopic t i = true ↔ ciQualifies t i)

/-- The relevance predicate actually implemented: the keyword token is
compared verbatim against the lowercased title/summary. -/
def verbatimQualifies (topic : Topic) (item : ResearchItem) : Prop :=
  (∃ ps, item.relevancePillars = some ps ∧ ∃ p ∈ ps,
      p = topic.pillar
        ∨ jsIncludes p ((jsSplit topic.pillar '-').headI) = true)
  ∨ (∃ kw ∈ jsSplit topic.targetKeyword ' ',
      jsIncludes (jsToLower item.title) kw = true
        ∨ ∃ sm, item.summary = some sm
            ∧ jsIncludes (jsToLower sm) kw = true)

/-- Claim C9 as stated: an explicitly supplied day number is always used
directly as the target day, and a supplied day with no matching topic
record makes the run abort with a fatal (non-zero) outcome. -/
def claimC9 : Prop :=
  ∀ (env : Env) (d : Int), env.specificDay = some d →
    theTargetDay env = some d ∧
    (∀ topics, env.topicBankFile = some topics →
      topics.find? (fun t => t.day == d) = none →
      mainRun env = (RunOutcome.fatalNoTopic d, noEffects))

-- ---------------------------------------------------------------------------
-- Concrete fixtures for counterexamples and witnesses
-- ---------------------------------------------------------------------------

/-- A representative topic record (day 1). -/
def sampleTopic : Topic :=
  { day := 1, slug := "day-one", title := "Seeing the Site"
    targetKeyword := "safety habits"
    psychologicalConcept := "A concept."
    constructionFraming := "", safetyTapConnection := "", tone := ""
    researchReferences := [], targetLength := ""
    pillar := "hazard-recognition", format := "field-tip" }

/-- A published schedule entry. -/
def pubEntry : PostEntry := [("status", FieldVal.str "published")]

/-- A three-record topic bank (days 1–3). -/
def bank3 : List Topic :=
  [sampleTopic,
   { sampleTopic with day := 2, slug := "day-two" },
   { sampleTopic with day := 3, slug := "day-three" }]

/-- A schedule with days 1–3 all published. -/
def allPub3 : Schedule :=
  { startDate := ⟨2026, 1, 1⟩
    posts := some [(1, pubEntry), (2, pubEntry), (3, pubEntry)] }

/-- The spec's scenario schedule: day 1 published, day 2 absent, day 3
published. -/
def scenarioSchedule : Schedule :=
  { startDate := ⟨2026, 1, 1⟩
    posts := some [(1, pubEntry), (3, pubEntry)] }

/-- Topic whose keyword contains an upper-case token. -/
def cexTopic : Topic :=
  { sampleTopic with pillar := "zz", targetKeyword := "OSHA" }

/-- Feed item whose title contains that token (up to case). -/
def cexItem : ResearchItem :=
  { title := "OSHA update", summary := none, relevancePillars := none
    relevanceScore := 1000, potentialAngles := [] }

/-- Topic with a lower-case keyword token, for the amended-C5 witness. -/
def witTopic : Topic :=
  { sampleTopic with pillar := "zz", targetKeyword := "osha news" }

/-- Feed item matched by the verbatim token `"osha"`. -/
def witItem : ResearchItem :=
  { title := "OSHA Update", summary := none, relevancePillars := none
    relevanceScore := 800, potentialAngles := [] }

/-- A run invoked with `--day 0`. -/
def envDayZero : Env :=
  { topicBankFile := some [sampleTopic], scheduleFile := none
    researchFeedFile := none, blogFiles := [], specificDay := some 0
    previewMode := false, hasApiKey := false, today := ⟨2026, 1, 1⟩
    nowMs := 0, nowIso := "2026-01-01T00:00:00.000Z", oracleText := "body" }

/-- A run invoked with `--day 999` against a bank with no day 999. -/
def envDay999 : Env :=
  { envDayZero with specificDay := some 999 }

/-- A run whose target topic's content file already exists. -/
def envSkip : Env :=
  { envDayZero with specificDay := none, blogFiles := ["day-one.mdx"] }

/-- A run with no schedule file on disk. -/
def envFresh : Env :=
  { envDayZero with specificDay := none }

/-- A pre-existing day-1 schedule entry carrying a hero image and an
editorial note, still in `draft` status. -/
def draftEntry : PostEntry :=
  [("heroImage", FieldVal.str "img.png"),
   ("editorialNote", FieldVal.str "emphasize fall protection"),
   ("status", FieldVal.str "draft")]

/-- A run that generates day 1 over that pre-existing entry. -/
def envGen : Env :=
  { envDayZero with
    specificDay := none, hasApiKey := true
    scheduleFile := some { startDate := ⟨2026, 3, 1⟩
                           posts := some [(1, draftEntry)] } }

/-- A stale research feed (generated at epoch 0) with one item. -/
def staleFeed : Feed :=
  { generatedAt := 0
    items := some [{ title := "t", summary := none, relevancePillars := none
                     relevanceScore := 900, potentialAngles := [] }] }

/-- A wall clock 48 hours and 1 millisecond past the feed's timestamp. -/
def nowStale : Int := 48 * 60 * 60 * 1000 + 1

/-- Two batch files: one loaded out of day order, one missing. -/
def witBatches : List (String × CombineTopics.BatchData) :=
  [("topics-batch-1.json",
    CombineTopics.BatchData.loaded
      [{ sampleTopic with day := 2, slug := "day-two" }, sampleTopic]),
   ("topics-batch-2.json", CombineTopics.BatchData.missing)]

-- ---------------------------------------------------------------------------
-- Helper lemmas
-- ---------------------------------------------------------------------------

/-- Association-list lookup distributes over append: the first list wins. -/
lemma lookupAppend {α β : Type} [BEq α] (a : α) :
    ∀ (l₁ l₂ : List (α × β)),
      List.lookup a (l₁ ++ l₂)
        = (List.lookup a l₁).orElse (fun _ => List.lookup a l₂)
  | [], l₂ => by simp [List.lookup, Option.orElse]
  | (k, v) :: t, l₂ => by
      rw [List.cons_append, List.lookup_cons, List.lookup_cons]
      cases h : a == k
      · simpa [Option.orElse] using lookupAppend a t l₂
      · simp [Option.orElse]

/-- `jsSetDedup` preserves membership. -/
lemma mem_jsSetDedup {α : Type} [DecidableEq α] :
    ∀ (l : List α) (a : α), a ∈ jsSetDedup l ↔ a ∈ l
  | [], a => by simp [jsSetDedup]
  | x :: xs, a => by
      rw [jsSetDedup]
      by_cases hax : a = x
      · subst hax; simp
      · simp only [List.mem_cons, hax, false_or]
        rw [mem_jsSetDedup (xs.filter (fun y => y != x)) a]
        simp [List.mem_filter, hax]
termination_by l => l.length
decreasing_by
  simp only [List.length_cons]
  exact Nat.lt_succ_of_le (List.length_filter_le _ _)

/-- `jsSetDedup` produces a duplicate-free list. -/
lemma nodup_jsSetDedup {α : Type} [DecidableEq α] :
    ∀ (l : List α), (jsSetDedup l).Nodup
  | [] => by simp [jsSetDedup]
  | x :: xs => by
      rw [jsSetDedup]
      refine List.nodup_cons.mpr ⟨?_, nodup_jsSetDedup _⟩
      intro hmem
      have := (mem_jsSetDedup _ _).mp hmem
      simp [List.mem_filter] at this
termination_by l => l.length
decreasing_by
  simp only [List.length_cons]
  exact Nat.lt_succ_of_le (List.length_filter_le _ _)

/-- The civil day-count formula is linear in the day-of-month: day `d` of a
month is `d - 1` days after day `1` of the same month. -/
lemma daysFromCivil_shift (y m d : Int) :
    daysFromCivil y m d = daysFromCivil y m 1 + (d - 1) := by
  simp only [daysFromCivil, dayOfYear]
  generalize eraOf (shiftedYear y m) = E
  generalize yearOfEra (shiftedYear y m) = Y
  generalize (153 * ((m + 9) % 12) + 2) / 5 = Q
  generalize Y / 4 = A
  generalize Y / 100 = B
  ring

/-- `find?` over the ascending integer range `[s, s+len)` returns the
smallest element satisfying the predicate. -/
lemma find?_intRange_spec (p : Int → Bool) :
    ∀ (len s : Nat) (d : Int),
      ((List.range' s len).map Int.ofNat).find? p = some d →
      (s : Int) ≤ d ∧ d < (s : Int) + len ∧ p d = true ∧
        ∀ e : Int, (s : Int) ≤ e → e < d → p e = false
  | 0, s, d => by simp
  | len + 1, s, d => by
      intro h
      rw [List.range'_succ, List.map_cons] at h
      simp only [Int.ofNat_eq_natCast] at h
      by_cases hp : p (s : Int) = true
      · rw [List.find?_cons_of_pos _ hp] at h
        obtain rfl : (s : Int) = d := by simpa using h
        exact ⟨le_refl _, by push_cast; omega, hp, fun e he hlt => by omega⟩
      · rw [List.find?_cons_of_neg _ (by simpa using hp)] at h
        obtain ⟨h1, h2, h3, h4⟩ := find?_intRange_spec p len (s + 1) d h
        push_cast at h1 h2
        refine ⟨by omega, by push_cast; omega, h3, ?_⟩
        intro e he hlt
        rcases eq_or_lt_of_le he with heq | hgt
        · rw [← heq]; simpa using hp
        · exact h4 e (by push_cast; omega) hlt

/-- When `find?` over the ascending integer range `[s, s+len)` returns
`none`, the predicate fails on the whole range. -/
lemma find?_intRange_none (p : Int → Bool) (len s : Nat)
    (h : ((List.range' s len).map Int.ofNat).find? p = none) :
    ∀ e : Int, (s : Int) ≤ e → e < (s : Int) + len → p e = false := by
  intro e he hlt
  have hmem : e ∈ (List.range' s len).map (Int.ofNat) := by
    refine List.mem_map.mpr ⟨e.toNat, ?_, by simp only [Int.ofNat_eq_natCast]; omega⟩
    rw [List.mem_range']
    exact ⟨e.toNat - s, by omega, by omega⟩
  have := List.find?_eq_none.mp h e hmem
  simpa using this

-- ---------------------------------------------------------------------------
-- C3: date resolution
-- ---------------------------------------------------------------------------

/-- C3.  For every schedule (and for the initializer's start date) and
every day number, the resolved calendar date is `startDate + (day - 1)`
days in UTC: the generator's `getDateForDay`, which rolls an out-of-range
day-of-month through `Date.UTC`, lands on exactly that epoch day; the
initializer's textually identical function does too; and the computation
is invariant under the host's local timezone offset, since it uses only
the UTC primitives. -/
theorem claim3_date_resolution (s : Schedule) (st : Date)
    (day tz tz' : Int) :
    DailyGenerate.getDateForDay s day
        = addDays (civilToEpochDay s.startDate) (day - 1)
    ∧ InitSchedule.getDateForDay st day
        = addDays (civilToEpochDay st) (day - 1)
    ∧ DailyGenerate.hostGetDateForDay tz s day
        = DailyGenerate.hostGetDateForDay tz' s day := by
  refine ⟨?_, ?_, rfl⟩
  · simp only [DailyGenerate.getDateForDay, jsUTCDay, civilToEpochDay,
      addDays]
    rw [daysFromCivil_shift s.startDate.y s.startDate.m s.startDate.d]
    ring
  · simp only [InitSchedule.getDateForDay, jsUTCDay, civilToEpochDay,
      addDays]
    rw [daysFromCivil_shift st.y st.m st.d]
    ring

-- ---------------------------------------------------------------------------
-- C1: day selector
-- ---------------------------------------------------------------------------

/-- C1, counterexample to the claim as stated.  The claim ties the scan
range `[1, N]` to the Topic Bank's topic count; the source hard-codes
`1..180`.  With a three-topic bank (as in the spec's own scenario) whose
three days are all published, the claim demands the completion sentinel
`null`, but `getNextScheduledDay` returns day 4. -/
theorem claim1_counterexample : ¬ claimC1 := by
  intro h
  exact absurd (h bank3 allPub3) (by decide)

/-- C1, amended: the Day Selector scans the fixed range `[1, 180]`
(regardless of the topic count) and returns the smallest day in that range
whose schedule entry is absent or has status other than `"published"`,
returning the sentinel `null` only when all 180 days are published; on the
spec's scenario (day 1 published, day 2 absent, day 3 published) it
returns 2. -/
theorem claim1_day_selector (s : Schedule) :
    (∀ d : Int, DailyGenerate.getNextScheduledDay s = some d →
        1 ≤ d ∧ d ≤ 180 ∧
          DailyGenerate.isPublished (s.posts.getD []) d = false ∧
          ∀ e : Int, 1 ≤ e → e < d →
            DailyGenerate.isPublished (s.posts.getD []) e = true)
    ∧ (DailyGenerate.getNextScheduledDay s = none →
        ∀ d : Int, 1 ≤ d → d ≤ 180 →
          DailyGenerate.isPublished (s.posts.getD []) d = true)
    ∧ DailyGenerate.getNextScheduledDay scenarioSchedule = some 2 := by
  refine ⟨?_, ?_, by decide⟩
  · intro d h
    simp only [DailyGenerate.getNextScheduledDay] at h
    obtain ⟨h1, h2, h3, h4⟩ := find?_intRange_spec _ 180 1 d h
    refine ⟨by exact_mod_cast h1, by push_cast at h2; omega, by simpa using h3, ?_⟩
    intro e he hlt
    have := h4 e (by exact_mod_cast he) hlt
    simpa using this
  · intro h d hd1 hd2
    simp only [DailyGenerate.getNextScheduledDay] at h
    have := find?_intRange_none _ 180 1 h d (by exact_mod_cast hd1)
      (by push_cast; omega)
    simpa using this

/-- Witness for C1: on the scenario schedule the theorem yields that day 2
is unpublished and day 1 (the only smaller day) is published. -/
theorem claim1_witness :
    DailyGenerate.isPublished (scenarioSchedule.posts.getD []) 2 = false
    ∧ DailyGenerate.isPublished (scenarioSchedule.posts.getD []) 1 = true :=
  ⟨((claim1_day_selector scenarioSchedule).1 2 (by decide)).2.2.1,
   ((claim1_day_selector scenarioSchedule).1 2 (by decide)).2.2.2 1
     (by decide) (by decide)⟩

-- ---------------------------------------------------------------------------
-- C2: skip path is a pure no-op
-- ---------------------------------------------------------------------------

/-- C2.  When the target topic's content file already exists on disk, the
run ends as a skip with exit code 0 and empty effects: no oracle call, no
file written, and `saveSchedule` never invoked, so the Schedule Store is
byte-for-byte unchanged. -/
theorem claim2_skip_is_noop (env : Env) (topics : List DailyGenerate.Topic)
    (d : Int) (topic : DailyGenerate.Topic)
    (hbank : env.topicBankFile = some topics)
    (hday : DailyGenerate.theTargetDay env = some d)
    (htopic : topics.find? (fun t => t.day == d) = some topic)
    (hfile : topic.slug ++ ".mdx" ∈ env.blogFiles) :
    DailyGenerate.mainRun env
        = (DailyGenerate.RunOutcome.skipped topic.slug, DailyGenerate.noEffects)
      ∧ (DailyGenerate.mainRun env).1.exitCode = 0 := by
  have hrun : DailyGenerate.mainRun env
      = (DailyGenerate.RunOutcome.skipped topic.slug, DailyGenerate.noEffects) := by
    simp only [DailyGenerate.mainRun, hbank, hday, htopic]
    simp [hfile]
  exact ⟨hrun, by rw [hrun]; rfl⟩

/-- Witness for C2: a concrete run whose day-1 content file is already
present is reported as a skip with no effects. -/
theorem claim2_witness :
    DailyGenerate.mainRun envSkip
        = (DailyGenerate.RunOutcome.skipped sampleTopic.slug,
           DailyGenerate.noEffects)
      ∧ (DailyGenerate.mainRun envSkip).1.exitCode = 0 :=
  claim2_skip_is_noop envSkip [sampleTopic] 1 sampleTopic rfl (by decide)
    (by decide) (by decide)

-- ---------------------------------------------------------------------------
-- C9: explicit --day override
-- ---------------------------------------------------------------------------

/-- C9, counterexample to the claim as stated.  `--day 0` is an explicitly
supplied day number, but `SPECIFIC_DAY || getNextScheduledDay(schedule)`
treats the JS number `0` as falsy: on a fresh schedule the run selects
day 1 instead of using the supplied day 0 (and instead of aborting for the
nonexistent topic 0). -/
theorem claim9_counterexample : ¬ claimC9 := by
  intro h
  exact absurd (h envDayZero 0 rfl).1 (by decide)

/-- C9, amended: for every explicitly supplied *nonzero* day number the
selection scan is skipped and the supplied day is the target day, and if
that day has no matching topic record the run aborts with the fatal
configuration outcome (exit code 1) and no effects.  (A supplied `0` is
falsy in JS and falls back to the selection scan.) -/
theorem claim9_day_override (env : Env) (d : Int)
    (hd : env.specificDay = some d) (hdz : d ≠ 0) :
    DailyGenerate.theTargetDay env = some d
    ∧ (∀ topics, env.topicBankFile = some topics →
        topics.find? (fun t => t.day == d) = none →
        DailyGenerate.mainRun env
            = (DailyGenerate.RunOutcome.fatalNoTopic d, DailyGenerate.noEffects)
          ∧ (DailyGenerate.mainRun env).1.exitCode = 1) := by
  have htd : DailyGenerate.theTargetDay env = some d := by
    simp [DailyGenerate.theTargetDay, jsOrInt, hd, hdz]
  refine ⟨htd, ?_⟩
  intro topics hbank hfind
  have hrun : DailyGenerate.mainRun env
      = (DailyGenerate.RunOutcome.fatalNoTopic d, DailyGenerate.noEffects) := by
    simp only [DailyGenerate.mainRun, hbank, htd, hfind]
  exact ⟨hrun, by rw [hrun]; rfl⟩

/-- Witness for C9: `--day 999` against a bank without day 999 is used
directly as the target day and aborts fatally. -/
theorem claim9_witness :
    DailyGenerate.theTargetDay envDay999 = some 999
    ∧ DailyGenerate.mainRun envDay999
        = (DailyGenerate.RunOutcome.fatalNoTopic 999, DailyGenerate.noEffects) :=
  ⟨(claim9_day_override envDay999 999 rfl (by decide)).1,
   ((claim9_day_override envDay999 999 rfl (by decide)).2 [sampleTopic] rfl
     (by decide)).1⟩

-- ---------------------------------------------------------------------------
-- C10: missing schedule file
-- ---------------------------------------------------------------------------

/-- C10.  When `schedule.json` is absent the run proceeds (loading is
total) with a fresh schedule whose `startDate` is today's date and whose
`posts` object is empty; the Day Selector then picks day 1, and day `d`
resolves to today plus `d - 1` days. -/
theorem claim10_missing_schedule (env : Env)
    (h : env.scheduleFile = none) :
    DailyGenerate.theSchedule env
        = { startDate := env.today, posts := some [] }
    ∧ DailyGenerate.getNextScheduledDay (DailyGenerate.theSchedule env)
        = some 1
    ∧ (env.specificDay = none → DailyGenerate.theTargetDay env = some 1)
    ∧ ∀ day : Int,
        DailyGenerate.getDateForDay (DailyGenerate.theSchedule env) day
          = addDays (civilToEpochDay env.today) (day - 1) := by
  have hs : DailyGenerate.theSchedule env
      = { startDate := env.today, posts := some [] } := by
    simp [DailyGenerate.theSchedule, DailyGenerate.loadSchedule, h]
  have hnext : DailyGenerate.getNextScheduledDay (DailyGenerate.theSchedule env)
      = some 1 := by
    rw [hs]
    simp only [DailyGenerate.getNextScheduledDay]
    rw [show (180 : Nat) = 179 + 1 from rfl, List.range'_succ, List.map_cons]
    rw [List.find?_cons_of_pos _ (by decide)]
    rfl
  refine ⟨hs, hnext, fun hsp => ?_, fun day => ?_⟩
  · simp [DailyGenerate.theTargetDay, jsOrInt, hsp, hnext]
  · rw [hs]
    simp only [DailyGenerate.getDateForDay, jsUTCDay, civilToEpochDay,
      addDays]
    rw [daysFromCivil_shift env.today.y env.today.m env.today.d]
    ring

/-- Witness for C10: on a concrete run without a schedule file, the
selector picks day 1 and day 5 resolves to today plus 4 days. -/
theorem claim10_witness :
    DailyGenerate.getNextScheduledDay (DailyGenerate.theSchedule envFresh)
        = some 1
    ∧ DailyGenerate.getDateForDay (DailyGenerate.theSchedule envFresh) 5
        = addDays (civilToEpochDay envFresh.today) (5 - 1) :=
  ⟨(claim10_missing_schedule envFresh rfl).2.1,
   (claim10_missing_schedule envFresh rfl).2.2.2 5⟩

-- ---------------------------------------------------------------------------
-- C8: schedule update merges rather than replaces
-- ---------------------------------------------------------------------------

/-- Keys outside `updatedFields` are not found in it. -/
lemma lookup_updatedFields_not_written (topic : DailyGenerate.Topic)
    (pd : Int) (iso : String) (r n : Bool) (k : String)
    (hk : k ∉ DailyGenerate.writtenKeys) :
    (DailyGenerate.updatedFields topic pd iso r n).lookup k = none := by
  simp only [DailyGenerate.writtenKeys, List.mem_cons, List.mem_singleton,
    not_or] at hk
  obtain ⟨h1, h2, h3, h4, h5, h6, h7, h8, h9, -⟩ := hk
  simp [DailyGenerate.updatedFields, List.lookup, beq_eq_false_iff_ne.mpr h1,
    beq_eq_false_iff_ne.mpr h2, beq_eq_false_iff_ne.mpr h3,
    beq_eq_false_iff_ne.mpr h4, beq_eq_false_iff_ne.mpr h5,
    beq_eq_false_iff_ne.mpr h6, beq_eq_false_iff_ne.mpr h7,
    beq_eq_false_iff_ne.mpr h8, beq_eq_false_iff_ne.mpr h9]

/-- C8.  On the non-skip generation path, the run makes one oracle call,
writes exactly the topic's content file, and saves a schedule that differs
from the loaded one only at the target day: that day's entry keeps every
field outside the written set (e.g. `heroImage`, `editorialNote`) exactly
as before the run, while gaining status `"published"`, the generation
timestamp, and the research/editorial flags; every other day's entry and
the start date are unchanged. -/
theorem claim8_merge_update (env : Env) (topics : List DailyGenerate.Topic)
    (d : Int) (topic : DailyGenerate.Topic)
    (hbank : env.topicBankFile = some topics)
    (hday : DailyGenerate.theTargetDay env = some d)
    (htopic : topics.find? (fun t => t.day == d) = some topic)
    (hfile : topic.slug ++ ".mdx" ∉ env.blogFiles)
    (hprev : env.previewMode = false)
    (hkey : env.hasApiKey = true) :
    ∃ s' : Schedule,
      DailyGenerate.mainRun env
          = (DailyGenerate.RunOutcome.generated topic.slug,
             ⟨1, [topic.slug ++ ".mdx"], some s'⟩)
      ∧ s'.startDate = (DailyGenerate.theSchedule env).startDate
      ∧ (∀ d' : Int, d' ≠ d →
          (s'.posts.getD []).lookup d'
            = ((DailyGenerate.theSchedule env).posts.getD []).lookup d')
      ∧ ∃ e' : PostEntry,
          (s'.posts.getD []).lookup d = some e'
          ∧ e'.lookup "status" = some (FieldVal.str "published")
          ∧ e'.lookup "generatedAt" = some (FieldVal.str env.nowIso)
          ∧ e'.lookup "hadResearchIntegration"
              = some (FieldVal.bool (decide (0 <
                  (DailyGenerate.findRelevantResearch topic
                    (DailyGenerate.loadResearchFeed env.researchFeedFile
                      env.nowMs)).length)))
          ∧ e'.lookup "hadEditorialNote"
              = some (FieldVal.bool
                  (DailyGenerate.editorialNoteOf
                    (DailyGenerate.theSchedule env) d).isSome)
          ∧ ∀ k : String, k ∉ DailyGenerate.writtenKeys →
              e'.lookup k
                = ((((DailyGenerate.theSchedule env).posts.getD []).lookup d).getD
                    []).lookup k := by
  set sched := DailyGenerate.theSchedule env with hsched
  set oldPosts := sched.posts.getD [] with holdPosts
  set existing := (oldPosts.lookup d).getD [] with hexisting
  set research := DailyGenerate.findRelevantResearch topic
    (DailyGenerate.loadResearchFeed env.researchFeedFile env.nowMs)
    with hresearch
  set note := DailyGenerate.editorialNoteOf sched d with hnote
  set newEntry := DailyGenerate.updatedFields topic
      (DailyGenerate.getDateForDay sched d) env.nowIso
      (decide (0 < research.length)) note.isSome ++ existing
    with hnewEntry
  refine ⟨{ sched with posts := some ((d, newEntry) :: oldPosts) }, ?_, rfl,
    ?_, newEntry, ?_, ?_, ?_, ?_, ?_, ?_⟩
  · simp only [DailyGenerate.mainRun, hbank, hday, htopic]
    simp [hfile, hprev, hkey, ← hsched, ← holdPosts, ← hexisting,
      ← hresearch, ← hnote, ← hnewEntry]
  · intro d' hd'
    simp [List.lookup_cons, beq_eq_false_iff_ne.mpr hd']
  · simp [List.lookup_cons]
  · simp [hnewEntry, lookupAppend, DailyGenerate.updatedFields, List.lookup,
      Option.orElse]
  · simp [hnewEntry, lookupAppend, DailyGenerate.updatedFields, List.lookup,
      Option.orElse]
  · simp [hnewEntry, lookupAppend, DailyGenerate.updatedFields, List.lookup,
      Option.orElse]
  · simp [hnewEntry, lookupAppend, DailyGenerate.updatedFields, List.lookup,
      Option.orElse]
  · intro k hk
    rw [hnewEntry, lookupAppend,
      lookup_updatedFields_not_written _ _ _ _ _ _ hk]
    simp [Option.orElse]

/-- Witness for C8: a concrete generation run over a pre-existing day-1
entry carrying `heroImage`, `editorialNote` and `draft` status. -/
theorem claim8_witness :
    ∃ s' : Schedule,
      DailyGenerate.mainRun envGen
          = (DailyGenerate.RunOutcome.generated sampleTopic.slug,
             ⟨1, [sampleTopic.slug ++ ".mdx"], some s'⟩)
      ∧ s'.startDate = (DailyGenerate.theSchedule envGen).startDate
      ∧ (∀ d' : Int, d' ≠ 1 →
          (s'.posts.getD []).lookup d'
            = ((DailyGenerate.theSchedule envGen).posts.getD []).lookup d')
      ∧ ∃ e' : PostEntry,
          (s'.posts.getD []).lookup 1 = some e'
          ∧ e'.lookup "status" = some (FieldVal.str "published")
          ∧ e'.lookup "generatedAt" = some (FieldVal.str envGen.nowIso)
          ∧ e'.lookup "hadResearchIntegration"
              = some (FieldVal.bool (decide (0 <
                  (DailyGenerate.findRelevantResearch sampleTopic
                    (DailyGenerate.loadResearchFeed envGen.researchFeedFile
                      envGen.nowMs)).length)))
          ∧ e'.lookup "hadEditorialNote"
              = some (FieldVal.bool
                  (DailyGenerate.editorialNoteOf
                    (DailyGenerate.theSchedule envGen) 1).isSome)
          ∧ ∀ k : String, k ∉ DailyGenerate.writtenKeys →
              e'.lookup k
                = ((((DailyGenerate.theSchedule envGen).posts.getD
                      []).lookup 1).getD []).lookup k :=
  claim8_merge_update envGen [sampleTopic] 1 sampleTopic rfl (by decide)
    (by decide) (by decide) rfl rfl

-- ---------------------------------------------------------------------------
-- C4: research matcher bounds
-- ---------------------------------------------------------------------------

/-- C4.  For any feed file, topic and wall clock, the matcher returns at
most 3 items, every returned item scores at least `0.5` (500 thousandths),
and the result is empty when the feed file is absent or its `generatedAt`
lies more than 48 hours before the current time. -/
theorem claim4_research_bounds (topic : DailyGenerate.Topic)
    (file : Option DailyGenerate.Feed) (nowMs : Int) :
    (DailyGenerate.findRelevantResearch topic
        (DailyGenerate.loadResearchFeed file nowMs)).length ≤ 3
    ∧ (∀ item ∈ DailyGenerate.findRelevantResearch topic
          (DailyGenerate.loadResearchFeed file nowMs),
        500 ≤ item.relevanceScore)
    ∧ (file = none →
        DailyGenerate.findRelevantResearch topic
          (DailyGenerate.loadResearchFeed file nowMs) = [])
    ∧ (∀ f, file = some f → 48 * 60 * 60 * 1000 < nowMs - f.generatedAt →
        DailyGenerate.findRelevantResearch topic
          (DailyGenerate.loadResearchFeed file nowMs) = []) := by
  have hgen : ∀ feedOpt : Option DailyGenerate.Feed,
      (DailyGenerate.findRelevantResearch topic feedOpt).length ≤ 3
      ∧ ∀ item ∈ DailyGenerate.findRelevantResearch topic feedOpt,
          500 ≤ item.relevanceScore := by
    intro feedOpt
    match feedOpt with
    | none => simp [DailyGenerate.findRelevantResearch]
    | some f =>
        match hitems : f.items with
        | none => simp [DailyGenerate.findRelevantResearch, hitems]
        | some items =>
            refine ⟨?_, ?_⟩
            · simp only [DailyGenerate.findRelevantResearch, hitems]
              exact List.length_take_le 3 _
            · intro item hmem
              simp only [DailyGenerate.findRelevantResearch, hitems] at hmem
              have hf := List.mem_of_mem_take hmem
              have hmt := (List.mem_filter.mp hf).2
              by_cases hlt : item.relevanceScore < 500
              · simp [DailyGenerate.matchesTopic, hlt] at hmt
              · omega
  refine ⟨(hgen _).1, (hgen _).2, ?_, ?_⟩
  · intro h
    subst h
    simp [DailyGenerate.loadResearchFeed, DailyGenerate.findRelevantResearch]
  · intro f hf hstale
    subst hf
    have hload : DailyGenerate.loadResearchFeed (some f) nowMs = none := by
      simp only [DailyGenerate.loadResearchFeed]
      rw [if_pos hstale]
    rw [hload]
    rfl

/-- Witness for C4: a feed 48 hours and 1 ms old yields no items, and so
does an absent feed file. -/
theorem claim4_witness :
    DailyGenerate.findRelevantResearch sampleTopic
        (DailyGenerate.loadResearchFeed (some staleFeed) nowStale) = []
    ∧ DailyGenerate.findRelevantResearch sampleTopic
        (DailyGenerate.loadResearchFeed none 0) = [] :=
  ⟨(claim4_research_bounds sampleTopic (some staleFeed) nowStale).2.2.2
      staleFeed rfl (by decide),
   (claim4_research_bounds sampleTopic none 0).2.2.1 rfl⟩

-- ---------------------------------------------------------------------------
-- C5: relevance predicate
-- ---------------------------------------------------------------------------

/-- C5, counterexample to the claim as stated.  The claim calls the
keyword comparison case-insensitive, but the source lowercases only the
title/summary, not the keyword token: the topic keyword `"OSHA"`
case-insensitively occurs in the title `"OSHA update"`, yet the filter
rejects the item. -/
theorem claim5_counterexample : ¬ claimC5 := by
  intro h
  have hci : ciQualifies cexTopic cexItem :=
    Or.inr ⟨"OSHA", by decide, Or.inl (by decide)⟩
  exact absurd ((h cexTopic cexItem (by decide)).mpr hci) (by decide)

/-- C5, amended: for items scoring at least `0.5`, the filter accepts
exactly when (a) the item's pillar tags intersect the topic's pillar,
directly or by containing the pillar's first hyphen-delimited segment, or
(b) some space-delimited token of the target keyword occurs *verbatim* in
the lowercased title or summary (case-insensitive only when the keyword
token is already lowercase). -/
theorem claim5_relevance (t : DailyGenerate.Topic)
    (i : DailyGenerate.ResearchItem) (h : 500 ≤ i.relevanceScore) :
    DailyGenerate.matchesTopic t i = true ↔ verbatimQualifies t i := by
  have hlt : ¬ i.relevanceScore < 500 := by omega
  rw [DailyGenerate.matchesTopic, if_neg hlt, Bool.or_eq_true]
  have hp : DailyGenerate.pillarMatches t.pillar i = true ↔
      (∃ ps, i.relevancePillars = some ps ∧ ∃ p ∈ ps,
        p = t.pillar
          ∨ jsIncludes p ((jsSplit t.pillar '-').headI) = true) := by
    cases hps : i.relevancePillars with
    | none => simp [DailyGenerate.pillarMatches, hps]
    | some ps =>
        simp [DailyGenerate.pillarMatches, hps, List.any_eq_true,
          Bool.or_eq_true, beq_iff_eq]
  have hk : DailyGenerate.keywordMatches t.targetKeyword i = true ↔
      (∃ kw ∈ jsSplit t.targetKeyword ' ',
        jsIncludes (jsToLower i.title) kw = true
          ∨ ∃ sm, i.summary = some sm
              ∧ jsIncludes (jsToLower sm) kw = true) := by
    cases hs : i.summary with
    | none =>
        simp [DailyGenerate.keywordMatches, hs, List.any_eq_true,
          Bool.or_eq_true]
    | some sm =>
        simp [DailyGenerate.keywordMatches, hs, List.any_eq_true,
          Bool.or_eq_true]
  rw [hp, hk, verbatimQualifies]

/-- Witness for C5: a concrete score-qualified item accepted through the
verbatim lower-case token `"osha"`. -/
theorem claim5_witness :
    500 ≤ witItem.relevanceScore
    ∧ DailyGenerate.matchesTopic witTopic witItem = true :=
  ⟨by decide,
   (claim5_relevance witTopic witItem (by decide)).mpr
     (Or.inr ⟨"osha", by decide, Or.inl (by decide)⟩)⟩

-- ---------------------------------------------------------------------------
-- C6: batch combiner
-- ---------------------------------------------------------------------------

/-- The comparator is transitive. -/
lemma dayLe_trans (a b c : DailyGenerate.Topic)
    (hab : CombineTopics.dayLe a b = true)
    (hbc : CombineTopics.dayLe b c = true) :
    CombineTopics.dayLe a c = true := by
  simp only [CombineTopics.dayLe, decide_eq_true_eq] at *
  omega

/-- The comparator is total. -/
lemma dayLe_total (a b : DailyGenerate.Topic) :
    (CombineTopics.dayLe a b || CombineTopics.dayLe b a) = true := by
  simp only [CombineTopics.dayLe, Bool.or_eq_true, decide_eq_true_eq]
  omega

/-- The concatenation of the loaded batches has the summed length. -/
lemma loadedTopics_length (files : List (String × CombineTopics.BatchData)) :
    (CombineTopics.loadedTopics files).length
      = CombineTopics.sumLoadedLengths files := by
  induction files with
  | nil => simp [CombineTopics.loadedTopics, CombineTopics.sumLoadedLengths]
  | cons f rest ih =>
      obtain ⟨name, data⟩ := f
      cases data <;>
        simp [CombineTopics.loadedTopics, CombineTopics.sumLoadedLengths, ih]

/-- C6.  The combiner's persisted output is sorted ascending by day and is
a permutation of the concatenated loaded inputs, so its length is the sum
of the loaded inputs' lengths; a missing batch file only contributes a
warning (the result is still produced), and duplicate days or slugs only
ever populate the warning lists — the output topics are computed the same
way regardless. -/
theorem claim6_combiner (files : List (String × CombineTopics.BatchData)) :
    List.Pairwise (fun a b : DailyGenerate.Topic => a.day ≤ b.day)
      (CombineTopics.combine files).topics
    ∧ (CombineTopics.combine files).topics.length
        = CombineTopics.sumLoadedLengths files
    ∧ (CombineTopics.combine files).topics.Perm
        (CombineTopics.loadedTopics files)
    ∧ ∀ name, (name, CombineTopics.BatchData.missing) ∈ files →
        name ∈ (CombineTopics.combine files).missingWarnings := by
  refine ⟨?_, ?_, ?_, ?_⟩
  · have h := List.sorted_mergeSort
      dayLe_trans dayLe_total (CombineTopics.loadedTopics files)
    refine List.Pairwise.imp ?_ h
    intro a b hab
    simpa [CombineTopics.dayLe] using hab
  · show ((CombineTopics.loadedTopics files).mergeSort
        CombineTopics.dayLe).length = _
    rw [List.length_mergeSort]
    exact loadedTopics_length files
  · exact List.mergeSort_perm _ _
  · intro name hmem
    show name ∈ (files.filter _).map _
    refine List.mem_map.mpr ⟨(name, CombineTopics.BatchData.missing), ?_, rfl⟩
    exact List.mem_filter.mpr ⟨hmem, rfl⟩

/-- Witness for C6: combining one out-of-order loaded batch with one
missing batch yields a day-sorted output of the summed length and records
the missing-file warning. -/
theorem claim6_witness :
    List.Pairwise (fun a b : DailyGenerate.Topic => a.day ≤ b.day)
      (CombineTopics.combine witBatches).topics
    ∧ (CombineTopics.combine witBatches).topics.length
        = CombineTopics.sumLoadedLengths witBatches
    ∧ "topics-batch-2.json"
        ∈ (CombineTopics.combine witBatches).missingWarnings :=
  ⟨(claim6_combiner witBatches).1, (claim6_combiner witBatches).2.1,
   (claim6_combiner witBatches).2.2.2 "topics-batch-2.json" (by decide)⟩

-- ---------------------------------------------------------------------------
-- C7: front-matter derivation
-- ---------------------------------------------------------------------------

/-- C7.  Front matter is a pure function of the topic and the resolved
date: read time comes from the fixed table with the `"5 min"` fallback for
unrecognized formats and `"3 min"` for `"field-tip"`; `featured` holds
exactly for `"deep-dive"` (so `"field-tip"` is not featured); the tags are
duplicate-free and consist exactly of the pillar, the format, and the
first two keyword tokens longer than 4 characters; and the description is
the psychological-concept text, truncated to 152 characters plus an
ellipsis — 155 characters in total — exactly when the original exceeds
155 characters. -/
theorem claim7_frontmatter (topic : DailyGenerate.Topic)
    (publishDate : Int) :
    ((DailyGenerate.buildFrontmatter topic publishDate).featured = true ↔
        topic.format = "deep-dive")
    ∧ (topic.format = "field-tip" →
        (DailyGenerate.buildFrontmatter topic publishDate).readTime = "3 min"
        ∧ (DailyGenerate.buildFrontmatter topic publishDate).featured = false)
    ∧ (DailyGenerate.readTimes.lookup topic.format = none →
        (DailyGenerate.buildFrontmatter topic publishDate).readTime = "5 min")
    ∧ (DailyGenerate.buildFrontmatter topic publishDate).tags.Nodup
    ∧ (∀ x : String,
        x ∈ (DailyGenerate.buildFrontmatter topic publishDate).tags ↔
          x = topic.pillar ∨ x = topic.format ∨
            x ∈ ((jsSplit topic.targetKeyword ' ').filter
                  (fun w => 4 < w.length)).take 2)
    ∧ (topic.psychologicalConcept.length ≤ 155 →
        (DailyGenerate.buildFrontmatter topic publishDate).description
          = topic.psychologicalConcept)
    ∧ (155 < topic.psychologicalConcept.length →
        (DailyGenerate.buildFrontmatter topic publishDate).description
            = jsSlice topic.psychologicalConcept 152 ++ "..."
          ∧ ((DailyGenerate.buildFrontmatter topic publishDate).description).length
              = 155) := by
  refine ⟨?_, ?_, ?_, ?_, ?_, ?_, ?_⟩
  · simp [DailyGenerate.buildFrontmatter, beq_iff_eq]
  · intro h
    constructor
    · simp [DailyGenerate.buildFrontmatter, DailyGenerate.readTimes, h,
        List.lookup]
    · simp [DailyGenerate.buildFrontmatter, h]
  · intro h
    simp [DailyGenerate.buildFrontmatter, h]
  · exact nodup_jsSetDedup _
  · intro x
    show x ∈ jsSetDedup _ ↔ _
    rw [mem_jsSetDedup]
    simp
  · intro h
    have : ¬ 155 < topic.psychologicalConcept.length := by omega
    simp [DailyGenerate.buildFrontmatter, this]
  · intro h
    have hdesc : (DailyGenerate.buildFrontmatter topic publishDate).description
        = jsSlice topic.psychologicalConcept 152 ++ "..." := by
      simp [DailyGenerate.buildFrontmatter, if_pos h]
    refine ⟨hdesc, ?_⟩
    rw [hdesc]
    have hdata : topic.psychologicalConcept.length
        = topic.psychologicalConcept.data.length := rfl
    have hslice : (jsSlice topic.psychologicalConcept 152).data.length = 152 := by
      show (topic.psychologicalConcept.data.take 152).length = 152
      rw [List.length_take]
      rw [hdata] at h
      omega
    have happ : (jsSlice topic.psychologicalConcept 152 ++ "...").length
        = (jsSlice topic.psychologicalConcept 152).data.length
          + ("..." : String).data.length := by
      show ((jsSlice topic.psychologicalConcept 152 ++ "...").data).length = _
      rw [String.data_append, List.length_append]
    rw [happ, hslice]
    rfl

/-- Witness for C7: the sample `"field-tip"` topic gets read time
`"3 min"`, is not featured, and its short concept is kept verbatim. -/
theorem claim7_witness :
    (DailyGenerate.buildFrontmatter sampleTopic 0).readTime = "3 min"
    ∧ (DailyGenerate.buildFrontmatter sampleTopic 0).featured = false
    ∧ (DailyGenerate.buildFrontmatter sampleTopic 0).description
        = sampleTopic.psychologicalConcept :=
  ⟨((claim7_frontmatter sampleTopic 0).2.1 rfl).1,
   ((claim7_frontmatter sampleTopic 0).2.1 rfl).2,
   (claim7_frontmatter sampleTopic 0).2.2.2.2.2.1 (by decide)⟩

end SafetyTap
